import Mathlib

/-!
Verification of the wedgiebar menu-bar plugin (src/plugin/wedgiebar.py).

This file gives a shallow embedding of the action registry
(Actions.make_action, Actions.execute_plugin and their helpers) and of the
SSH tunnel lifecycle manager (Actions.do_execute_ssh_tunnel,
Actions.do_terminate_tunnels, Actions.do_verify_loopback_address), and proves
properties of the embedded code.

Modelling conventions:
  * Side effects (printing, clipboard, notifications, shell commands, kills)
    are recorded as an ordered list of `Effect` values.
  * The outputs of external commands that the code reads (`ps -ef`,
    `ifconfig -a`) are passed in as explicit string parameters.
  * Python exceptions are values of `PyError`; a function that can raise
    returns a `RunOutcome` (or an `Except`) together with the effects it
    performed before raising.
  * Python regular expressions are translated into explicit character-level
    scanners that implement the exact semantics of the concrete patterns used
    by the code. Word characters are modelled as ASCII alphanumerics plus
    the underscore, matching the ASCII fragment of Python \w.
-/

/-- ASCII version of Python regex class \w: letters, digits, underscore. -/
def isWordChar (c : Char) : Bool := c.isAlphanum || c == '_'

/-- Python re.sub of pattern \W with replacement underscore: every individual
non-word character is replaced by one underscore (wedgiebar.py line 812 and
line 2771). -/
def pySubNonWordUnderscore (s : String) : String :=
  String.mk (s.data.map (fun c => if isWordChar c then c else '_'))

/-- Whether pattern list is a prefix of the text list. -/
def listIsPrefixOf (p t : List Char) : Bool :=
  match p, t with
  | [], _ => true
  | _ :: _, [] => false
  | c :: ps, d :: ts => c == d && listIsPrefixOf ps ts

/-- Whether the pattern occurs as a contiguous substring of the text,
implementing the Python `in` operator on strings. -/
def listContains (p h : List Char) : Bool :=
  match h with
  | [] => listIsPrefixOf p []
  | _ :: rest => listIsPrefixOf p h || listContains p rest

/-- Python `pat in hay` for strings. -/
def strContains (hay pat : String) : Bool := listContains pat.data hay.data

/-- One step of Python str.replace: replace non-overlapping occurrences of
`pat` left to right, fuelled by the text length. -/
def replaceAux (fuel : Nat) (pat rep t : List Char) : List Char :=
  match fuel, t with
  | 0, t => t
  | _ + 1, [] => []
  | f + 1, c :: rest =>
    if listIsPrefixOf pat (c :: rest) then
      rep ++ replaceAux f pat rep ((c :: rest).drop pat.length)
    else
      c :: replaceAux f pat rep rest

/-- Python str.replace (for a non-empty pattern). -/
def pyReplace (s pat rep : String) : String :=
  String.mk (replaceAux s.data.length pat.data rep.data s.data)

/-- Repeat a string n times, implementing the Python expression s * n. -/
def strRepeat (s : String) (n : Nat) : String := String.join (List.replicate n s)

/-- Python whitespace class \s (no newline appears inside split lines, but we
keep the full set). -/
def pyIsSpace (c : Char) : Bool :=
  c == ' ' || c == '\t' || c == '\n' || c == '\r' || c == Char.ofNat 11 || c == Char.ofNat 12

/-- Python str.strip: drop whitespace at both ends. -/
def pyStrip (s : String) : String :=
  String.mk (((s.data.dropWhile pyIsSpace).reverse.dropWhile pyIsSpace).reverse)

/-- Python-style prefix test, used for the anchored regex matches of the
pattern caret 127 backslash-dot. -/
def strStartsWith (s pre : String) : Bool := listIsPrefixOf pre.data s.data

/-- Python str.split on a newline separator. -/
def splitNewlineAux : List Char → List Char → List String
  | [], acc => [String.mk acc.reverse]
  | c :: rest, acc =>
    if c == '\n' then String.mk acc.reverse :: splitNewlineAux rest []
    else splitNewlineAux rest (c :: acc)

/-- Python s.split of a text into its newline-separated lines. -/
def pySplitLines (s : String) : List String := splitNewlineAux s.data []

/-- Value of a decimal digit string. -/
def digitsToNat (l : List Char) : Nat := l.foldl (fun n c => n * 10 + (c.toNat - 48)) 0

/-- Python int(s) for a string argument: optional sign and decimal digits,
surrounding whitespace allowed; none models the ValueError raise. The rare
underscore digit-grouping form of int literals is not modelled. -/
def pyIntOfStr (s : String) : Option Int :=
  match (pyStrip s).data with
  | [] => none
  | '+' :: rest =>
    if !rest.isEmpty && rest.all Char.isDigit then some (Int.ofNat (digitsToNat rest)) else none
  | '-' :: rest =>
    if !rest.isEmpty && rest.all Char.isDigit then some (-(Int.ofNat (digitsToNat rest))) else none
  | l =>
    if l.all Char.isDigit then some (Int.ofNat (digitsToNat l)) else none

/-- Values appearing in the ini-derived config dictionaries: absent (None),
strings, and the integer default 22 used for ssh_port. -/
inductive PyVal where
  | vnone
  | vstr (s : String)
  | vint (n : Int)
deriving Repr, DecidableEq

/-- Python truthiness for PyVal. -/
def PyVal.truthy : PyVal → Bool
  | .vnone => false
  | .vstr s => s != ""
  | .vint n => n != 0

/-- Python f-string rendering of a PyVal. -/
def pyFStr : PyVal → String
  | .vnone => "None"
  | .vstr s => s
  | .vint n => toString n

/-- Python equality test of a PyVal against an int literal: a string never
equals an int in Python, which matters for the self-loop port check. -/
def pyEqInt (v : PyVal) (n : Int) : Bool :=
  match v with
  | .vint m => m == n
  | _ => false

/-- Python int(x) on a PyVal; none models the raise for unparsable input. -/
def pyIntConv : PyVal → Option Int
  | .vint n => some n
  | .vstr s => pyIntOfStr s
  | .vnone => none

/-- Truthiness of an optional string config value (None and "" are falsy). -/
def optTruthy : Option String → Bool
  | some s => s != ""
  | none => false

/-- Python `a or b` on optional string config values. -/
def pyOrOpt (a b : Option String) : Option String := if optTruthy a then a else b

/-- Python exception values raised by the embedded code. -/
inductive PyError where
  | valueError (msg : String)
  | assertionError (msg : String)
  | exception (msg : String)
  | indexError (msg : String)
deriving Repr, DecidableEq

/-- Observable side effects of the plugin, in execution order. -/
inductive Effect where
  | printStdout (s : String)
  | copyClipboard (s : String)
  | beep
  | notification (content title : String)
  | sudoPrompt
  | runCommand (cmd : String)
  | kill (pid : Nat)
  | callAction (id : String)
deriving Repr, DecidableEq

/-- How a single top-level invocation ends. -/
inductive RunOutcome where
  | completed
  | raised (e : PyError)
  | exited (code : Nat)
deriving Repr, DecidableEq

/-- Behaviour of a bound zero-argument callable when invoked: returns
normally, or raises an exception (of class Exception) whose type name and
formatted traceback text are recorded. -/
inductive CallBehavior where
  | ok
  | raiseExn (exnName traceText : String)
deriving Repr, DecidableEq

/-- One registered action (the ActionObject dataclass). -/
structure ActionObject where
  id : String
  name : String
  action : CallBehavior
deriving Repr, DecidableEq

/-- The mutable state of an Actions instance that the registry operations
touch: the id-to-action map, the reserved keyboard shortcuts, the menu text
buffer, and the script path used in rendered menu lines. -/
structure RegistryState where
  actionList : List (String × ActionObject)
  reservedShortcuts : List (String × String)
  menuOutput : String
  scriptName : String
deriving Repr, DecidableEq

/-- Lookup in an insertion-ordered association list (Python dict read). -/
def alookup {κ α : Type} [BEq κ] : List (κ × α) → κ → Option α
  | [], _ => none
  | (k, v) :: rest, key => if k == key then some v else alookup rest key

/-- Python dict assignment d[k] = v: update in place if the key exists,
otherwise append, preserving insertion order. -/
def ainsert {κ α : Type} [BEq κ] : List (κ × α) → κ → α → List (κ × α)
  | [], k, v => [(k, v)]
  | (k2, v2) :: rest, k, v =>
    if k2 == k then (k2, v) :: rest else (k2, v2) :: ainsert rest k v

/-- Actions.print_in_menu: append a line to the menu buffer. -/
def printInMenu (st : RegistryState) (msg : String) : RegistryState :=
  { st with menuOutput := st.menuOutput ++ msg ++ "\n" }

/-- Default notification title (Actions.title_default). -/
def titleDefault : String := "LogicHub Helpers"

/-- Actions.display_notification: osascript notification with the content
quote-escaped and the default title substituted for a falsy title. -/
def displayNotification (content : String) (title : Option String) : Effect :=
  let c := pyReplace content "\"" "\\\""
  let t :=
    match title with
    | some s => if s == "" then titleDefault else s
    | none => titleDefault
  Effect.notification c t

/-- Actions.display_notification_error with print_stderr left False: fix
double quotes, beep, notify, and exit with status 1. -/
def displayNotificationError (content errPrefix : String) : List Effect × RunOutcome :=
  let content2 :=
    if strContains content "\"" then pyReplace content "\"" (String.singleton (Char.ofNat 39))
    else content
  let err := errPrefix ++ content2
  ([Effect.beep, displayNotification err none], RunOutcome.exited 1)

/-- Actions.fail_action_with_exception called with the caught exception: the
traceback text is copied to the clipboard (write_clipboard with notification
skipped), then an error notification naming the exception type is emitted and
the process exits non-zero. -/
def failActionWithException (exnName traceText : String) : List Effect × RunOutcome :=
  let errorMsg := "Failed with an exception (" ++ exnName ++ "): check traceback in clipboard"
  let r := displayNotificationError errorMsg ""
  (Effect.copyClipboard traceText :: r.1, r.2)

/-- Continuation of Actions.make_action after the keyboard-shortcut handling
(wedgiebar.py lines 804-821). -/
def makeActionFinish (st : RegistryState) (name : String) (action : Option CallBehavior)
    (actionId : Option String) (terminal : Bool) (textColor : Option String)
    (shell : Option String) (menuLine actionString : String) :
    RegistryState × Except PyError (Option ActionObject) :=
  let menuLine := menuLine ++ " | " ++ actionString
  match action with
  | none =>
    let menuLine :=
      match textColor with
      | some tc => if tc == "" then menuLine else menuLine ++ " color=" ++ tc
      | none => menuLine
    (printInMenu st menuLine, Except.ok none)
  | some beh =>
    let aid :=
      match actionId with
      | some i => if i == "" then pySubNonWordUnderscore name else i
      | none => pySubNonWordUnderscore name
    let obj : ActionObject := { id := aid, name := name, action := beh }
    let st := { st with actionList := ainsert st.actionList aid obj }
    let terminalStr := if terminal then "true" else "false"
    let menuLine := menuLine ++ " | bash=\"" ++ st.scriptName ++ "\" | param1=\"" ++ aid
      ++ "\" | terminal=" ++ terminalStr
    let menuLine :=
      match shell with
      | some sh => if sh == "" then menuLine else menuLine ++ " | shell=" ++ sh
      | none => menuLine
    (printInMenu st menuLine, Except.ok (some obj))

/-- Actions.make_action (wedgiebar.py lines 790-821). A duplicate keyboard
shortcut raises ValueError before the shortcut is reserved and before any
menu line is appended; an absent callable renders a disabled line and creates
no dispatch entry. -/
def makeAction (st : RegistryState) (name : String) (action : Option CallBehavior)
    (actionId : Option String) (menuDepth : Nat) (alternate : Bool) (terminal : Bool)
    (textColor : Option String) (keyboardShortcut : String) (shell : Option String) :
    RegistryState × Except PyError (Option ActionObject) :=
  let menuLine := if menuDepth != 0 then strRepeat "--" menuDepth ++ " " ++ name else name
  let actionString := if alternate then " alternate=true" else ""
  if keyboardShortcut != "" then
    match alookup st.reservedShortcuts keyboardShortcut with
    | some prev =>
      (st, Except.error (PyError.valueError ("Keyboard shortcut \"" ++ keyboardShortcut
        ++ "\" already assigned to action \"" ++ prev
        ++ "\" and cannot be mapped to action " ++ name)))
    | none =>
      let st2 := { st with reservedShortcuts := ainsert st.reservedShortcuts keyboardShortcut name }
      makeActionFinish st2 name action actionId terminal textColor shell menuLine
        (actionString ++ " | key=" ++ keyboardShortcut)
  else
    makeActionFinish st name action actionId terminal textColor shell menuLine actionString

/-- Actions.execute_plugin (wedgiebar.py lines 2763-2779): a falsy action
prints the menu; otherwise the identifier is re-normalized, an unknown
identifier raises Exception without touching anything, and a known identifier
invokes its callable, converting a raise into the fail_action path. -/
def executePlugin (st : RegistryState) (action : String) :
    RegistryState × List Effect × RunOutcome :=
  if action == "" then
    (st, [Effect.printStdout (pyStrip st.menuOutput)], RunOutcome.completed)
  else
    let act := pySubNonWordUnderscore action
    match alookup st.actionList act with
    | none => (st, [], RunOutcome.raised (PyError.exception "Not a valid action"))
    | some obj =>
      match obj.action with
      | CallBehavior.ok => (st, [Effect.callAction act], RunOutcome.completed)
      | CallBehavior.raiseExn exnName traceText =>
        let r := failActionWithException exnName traceText
        (st, Effect.callAction act :: r.1, r.2)

/-- Number of callable invocations recorded in an effect trace. -/
def countCallActions (effs : List Effect) : Nat :=
  (effs.filterMap (fun e => match e with | Effect.callAction i => some i | _ => none)).length

/-- Notification effects contained in an effect trace. -/
def notificationsOf (effs : List Effect) : List Effect :=
  effs.filter (fun e => match e with | Effect.notification _ _ => true | _ => false)

/-- Shell commands launched in an effect trace (run_cli_command calls other
than the kill loop). -/
def launchCommands (effs : List Effect) : List String :=
  effs.filterMap (fun e => match e with | Effect.runCommand c => some c | _ => none)

/-- PIDs of the kill attempts recorded in an effect trace. -/
def killedPIDs (effs : List Effect) : List Nat :=
  effs.filterMap (fun e => match e with | Effect.kill p => some p | _ => none)

/-- A tunnel config dictionary from the custom networking ini section. Fields
read with config_dict.get are optional strings, except ssh_port which the code
compares against the integer default 22. -/
structure TunnelConfig where
  name : Option String
  remote_ip : Option String
  remote_port : Option String
  local_address : Option String
  local_port : Option String
  ssh_server : Option String
  ssh_port : PyVal
  ssh_user : Option String
  ssh_key : Option String
  ssh_options : Option String
deriving Repr, DecidableEq

/-- Effective SSH server port: config value if truthy, else the int 22
(wedgiebar.py line 2166). -/
def sshServerPort (cfg : TunnelConfig) : PyVal :=
  if cfg.ssh_port.truthy then cfg.ssh_port else PyVal.vint 22

/-- Message of the self-loop safety assertion (wedgiebar.py line 2186). -/
def selfLoopMsg : String :=
  "Error: SSH server is a loopback IP, and the port is left at 22. This will create a tunnel to your own machine and won"
    ++ String.singleton (Char.ofNat 39) ++ "t work!"

/-- The assertion chain of Actions.do_execute_ssh_tunnel (wedgiebar.py lines
2171-2186), evaluated before any side effect. Returns the first raised
exception, or none when every precondition holds. Each assert int(x) line is
modelled by two checks: int() raising ValueError on unparsable input (the
isNone test), then the assert on a zero result. The int() ValueError message
is abbreviated. -/
def tunnelPreflight (cfg : TunnelConfig) : Option PyError :=
  if !(optTruthy cfg.name) then
    some (PyError.assertionError "Error: SSH config must be given a name")
  else if !(optTruthy cfg.ssh_server) then
    some (PyError.assertionError "Error: SSH server address not provided")
  else if !((sshServerPort cfg).truthy) then
    some (PyError.assertionError "Error: SSH port for SSH tunnel not provided")
  else if (pyIntConv (sshServerPort cfg)).isNone then
    some (PyError.valueError "invalid literal for int() with base 10")
  else if (pyIntConv (sshServerPort cfg)).getD 0 == 0 then
    some (PyError.assertionError "Error: SSH port for SSH tunnel is not a number")
  else if !(optTruthy cfg.remote_ip) then
    some (PyError.assertionError "Error: Remote address for SSH tunnel not provided")
  else if !(optTruthy cfg.remote_port) then
    some (PyError.assertionError "Error: Remote port for SSH tunnel not provided")
  else if (pyIntOfStr (cfg.remote_port.getD "")).isNone then
    some (PyError.valueError "invalid literal for int() with base 10")
  else if (pyIntOfStr (cfg.remote_port.getD "")).getD 0 == 0 then
    some (PyError.assertionError "Error: Remote port for SSH tunnel is not a number")
  else if !(optTruthy cfg.local_address) then
    some (PyError.assertionError "Error: Loopback address not provided")
  else if !(optTruthy (pyOrOpt cfg.local_port cfg.remote_port)) then
    some (PyError.assertionError "Error: Loopback port not provided")
  else if (pyIntOfStr ((pyOrOpt cfg.local_port cfg.remote_port).getD "")).isNone then
    some (PyError.valueError "invalid literal for int() with base 10")
  else if (pyIntOfStr ((pyOrOpt cfg.local_port cfg.remote_port).getD "")).getD 0 == 0 then
    some (PyError.assertionError "Error: Loopback port for SSH tunnel is not a number")
  else if pyEqInt (sshServerPort cfg) 22 && strStartsWith (cfg.ssh_server.getD "") "127." then
    some (PyError.assertionError selfLoopMsg)
  else
    none

/-- Character match for the dynamic pattern rf"\b{ip}\b": a dot in the
interpolated ip is a regex wildcard (any char except newline), every other
char is literal. -/
def matchDotPat : List Char → List Char → Option (List Char)
  | [], t => some t
  | _ :: _, [] => none
  | p :: ps, c :: cs =>
    if (if p == '.' then c != '\n' else p == c) then matchDotPat ps cs else none

/-- Word-character test on an optional neighbouring char (none = text edge,
which counts as non-word for \b). -/
def wordAtHead : Option Char → Bool
  | some c => isWordChar c
  | none => false

/-- Attempt to match \b pat \b at the current position, with prev the char
just before the position. -/
def boundaryMatchHere (pat t : List Char) (prev : Option Char) : Bool :=
  match matchDotPat pat t with
  | none => false
  | some rest =>
    (wordAtHead prev != wordAtHead t.head?)
      && (wordAtHead (t.take pat.length).getLast? != wordAtHead rest.head?)

/-- re.findall truthiness for rf"\b{ip}\b" over the text: search every
position left to right. -/
def searchWordBounded (pat : List Char) : Option Char → List Char → Bool
  | prev, [] => boundaryMatchHere pat [] prev
  | prev, c :: cs => boundaryMatchHere pat (c :: cs) prev || searchWordBounded pat (some c) cs

/-- Actions.do_verify_loopback_address (wedgiebar.py lines 2130-2147) with the
output of `ifconfig -a` passed in: assertion-checked, then the alias is looked
up with word boundaries and created under sudo when missing (note the literal
dollar sign the f-string leaves in the ifconfig command). -/
def doVerifyLoopbackAddress (loopbackIp : String) (allowAllLoopbackIps : Bool)
    (ifconfigOut loopbackInterface : String) : Except PyError (List Effect) :=
  if loopbackIp == "" then
    Except.error (PyError.assertionError "No loopback address provided")
  else if !(strStartsWith loopbackIp "127.") then
    Except.error (PyError.assertionError ("Invalid loopback address (" ++ loopbackIp ++ ")"))
  else if !allowAllLoopbackIps && loopbackIp == "127.0.0.1" then
    Except.error (PyError.assertionError "Custom loopback IP is required. As a precaution, this script requires a loopback IP other than 127.0.0.1")
  else
    let ip := pyStrip loopbackIp
    if searchWordBounded ip.data none ifconfigOut.data then Except.ok []
    else
      Except.ok [Effect.sudoPrompt,
        Effect.runCommand ("sudo ifconfig " ++ loopbackInterface ++ " alias $" ++ ip)]

/-- The pid pattern of do_terminate_tunnels, re.compile of
the raw pattern caret backslash-s* digits+ backslash-s+ (digits+): skip
leading whitespace, a first digit run, a whitespace run, then capture the
second digit run. Returns the captured pid. -/
def pidOfLine (line : String) : Option Nat :=
  let t1 := line.data.dropWhile pyIsSpace
  let d1 := t1.takeWhile Char.isDigit
  if d1.isEmpty then none
  else
    let t2 := t1.drop d1.length
    let ws := t2.takeWhile pyIsSpace
    if ws.isEmpty then none
    else
      let t3 := t2.drop ws.length
      let d2 := t3.takeWhile Char.isDigit
      if d2.isEmpty then none else some (digitsToNat d2)

/-- The specific_loopback filter string of do_terminate_tunnels (wedgiebar.py
lines 2001-2003): stripped ip plus colon, and when a port is given, the port
plus another colon. -/
def specificLoopback (ip port : PyVal) : String :=
  let base := (if ip.truthy then pyStrip (pyFStr ip) else "") ++ ":"
  if port.truthy then base ++ pyFStr port ++ ":" else base

/-- Line filter of the tunnel_PIDs dict comprehension (wedgiebar.py line
2007): mentions ssh, mentions the local-forward flag, starts with the pid
pattern, and contains the loopback filter substring. -/
def tunnelLineMatches (specific : String) (line : String) : Bool :=
  strContains line "ssh" && strContains line "-L" && (pidOfLine line).isSome
    && strContains line specific

/-- Try the pattern of re.findall for host:port tokens at the current
position: a run of chars that are neither whitespace nor colon, a colon, a
digit run, and a lookahead requiring a colon or whitespace. Returns the match
and the remaining text (the lookahead consumes nothing). -/
def hostPortAt (t : List Char) : Option (String × List Char) :=
  let tok := t.takeWhile (fun c => !(pyIsSpace c) && c != ':')
  if tok.isEmpty then none
  else
    match t.drop tok.length with
    | ':' :: r2 =>
      let ds := r2.takeWhile Char.isDigit
      if ds.isEmpty then none
      else
        let r3 := r2.drop ds.length
        match r3.head? with
        | some c => if c == ':' || pyIsSpace c then some (String.mk (tok ++ ':' :: ds), r3) else none
        | none => none
    | _ => none

/-- Left-to-right scan of re.findall: on failure advance one char, on success
continue after the match. Fuelled by the text length (every step consumes at
least one char). -/
def hostPortFindallAux : Nat → List Char → List String
  | 0, _ => []
  | _ + 1, [] => []
  | f + 1, c :: rest =>
    match hostPortAt (c :: rest) with
    | some (m, r) => m :: hostPortFindallAux f r
    | none => hostPortFindallAux f rest

/-- All host:port tokens of a process line (wedgiebar.py line 2019). -/
def hostPortFindall (t : List Char) : List String := hostPortFindallAux t.length t

/-- Try the pattern -f then spaces then a non-space run at the current
position, returning the captured server token. -/
def dashFAt : List Char → Option String
  | '-' :: 'f' :: r =>
    let sp := r.takeWhile (fun c => c == ' ')
    if sp.isEmpty then none
    else
      let w := (r.drop sp.length).takeWhile (fun c => !(pyIsSpace c))
      if w.isEmpty then none else some (String.mk w)
  | _ => none

/-- First match of the -f server pattern in a process line (wedgiebar.py line
2020); none models the IndexError of indexing an empty findall result. -/
def dashFFind : List Char → Option String
  | [] => none
  | c :: rest =>
    match dashFAt (c :: rest) with
    | some s => some s
    | none => dashFFind rest

/-- Key of a process line in the tunnel_PIDs dict. Only evaluated on lines
the filter accepted, where the pid pattern matched. -/
def pidKey (l : String) : Nat := (pidOfLine l).getD 0

/-- The tunnel_PIDs dict (wedgiebar.py lines 2004-2008): matching lines in
order, keyed by pid with Python dict overwrite semantics. -/
def tunnelPIDDict (lines : List String) (specific : String) : List (Nat × String) :=
  (lines.filter (tunnelLineMatches specific)).foldl (fun d l => ainsert d (pidKey l) l) []

/-- A matching process line from which the report tokens can be extracted:
at least two host:port tokens and a -f server token. -/
def wellFormedTunnelLine (l : String) : Bool :=
  match hostPortFindall l.data with
  | _ :: _ :: _ => (dashFFind l.data).isSome
  | _ => false

/-- The kill loop of do_terminate_tunnels (wedgiebar.py lines 2017-2022):
for each dict entry extract the two host:port tokens (ValueError when there
are fewer), the -f server token (IndexError when absent), print the report
and kill the pid. A raise aborts the loop, keeping the effects so far. -/
def killLoop : List (Nat × String) → List Effect × RunOutcome
  | [] => ([], RunOutcome.completed)
  | (pid, line) :: rest =>
    match hostPortFindall line.data, dashFFind line.data with
    | h1 :: h2 :: _, some srv =>
      let r := killLoop rest
      (Effect.printStdout ("Killing " ++ h1 ++ " --> " ++ h2 ++ " via " ++ srv
          ++ " (PID " ++ toString pid ++ ")")
        :: Effect.kill pid :: r.1, r.2)
    | _ :: _ :: _, none =>
      ([], RunOutcome.raised (PyError.indexError "list index out of range"))
    | _, _ =>
      ([], RunOutcome.raised (PyError.valueError "not enough values to unpack"))

/-- Actions.do_terminate_tunnels (wedgiebar.py lines 1995-2023) applied to the
lines of the ps output: report when no tunnel matches, otherwise validate the
sudo session and kill every dict entry. -/
def doTerminateTunnelsLines (lines : List String) (specific : String) :
    List Effect × RunOutcome :=
  let pids := tunnelPIDDict lines specific
  if pids.isEmpty then
    ([Effect.printStdout "No existing SSH tunnels found",
      displayNotification "No existing SSH tunnels found" none], RunOutcome.completed)
  else
    let r := killLoop pids
    match r.2 with
    | RunOutcome.completed =>
      (Effect.sudoPrompt :: r.1 ++ [displayNotification "Tunnels terminated" none],
        RunOutcome.completed)
    | oc => (Effect.sudoPrompt :: r.1, oc)

/-- Actions.do_terminate_tunnels on the raw `ps -ef` output text. -/
def doTerminateTunnels (psOut : String) (loopbackIp loopbackPort : PyVal) :
    List Effect × RunOutcome :=
  doTerminateTunnelsLines (pySplitLines psOut) (specificLoopback loopbackIp loopbackPort)

/-- Actions.do_verify_ssh_tunnel_available (wedgiebar.py lines 2149-2151). -/
def doVerifySshTunnelAvailable (loopbackIp loopbackPort : String) (psOut : String) :
    List Effect × RunOutcome :=
  let r := doTerminateTunnels psOut (PyVal.vstr loopbackIp) (PyVal.vstr loopbackPort)
  (Effect.printStdout ("Checking for existing tunnels " ++ loopbackIp ++ ":" ++ loopbackPort
    ++ "...") :: r.1, r.2)

/-- Actions.do_execute_ssh_tunnel (wedgiebar.py lines 2153-2225) with the
general config defaults (local_user, default_ssh_key, loopback interface) and
the external command outputs passed in. The assembled ssh command is recorded
as a runCommand effect. -/
def doExecuteSshTunnel (cfg : TunnelConfig) (localUser defaultSshKey loopbackInterface : String)
    (ifconfigOut psOut : String) : List Effect × RunOutcome :=
  match tunnelPreflight cfg with
  | some e => ([], RunOutcome.raised e)
  | none =>
    let nameStr := cfg.name.getD ""
    let remoteAddrStr := cfg.remote_ip.getD ""
    let remotePortStr := cfg.remote_port.getD ""
    let localAddrStr := cfg.local_address.getD ""
    let localPortStr := (pyOrOpt cfg.local_port cfg.remote_port).getD ""
    let serverStr := cfg.ssh_server.getD ""
    let sshUserStr := if optTruthy cfg.ssh_user then cfg.ssh_user.getD "" else localUser
    let sshKeyStr := if optTruthy cfg.ssh_key then cfg.ssh_key.getD "" else defaultSshKey
    let sshOptionsRaw := pyStrip (cfg.ssh_options.getD "")
    match doVerifyLoopbackAddress localAddrStr false ifconfigOut loopbackInterface with
    | Except.error e => ([], RunOutcome.raised e)
    | Except.ok effs1 =>
      let r2 := doVerifySshTunnelAvailable localAddrStr localPortStr psOut
      match r2.2 with
      | RunOutcome.completed =>
        let sshOptions :=
          if sshOptionsRaw == "" then "-i " ++ sshKeyStr ++ " -o StrictHostKeyChecking=no"
          else if !(strContains sshOptionsRaw "-i") then "-i " ++ sshKeyStr ++ " " ++ sshOptionsRaw
          else sshOptionsRaw
        let sshCommand := "ssh " ++ sshOptions ++ " -Y -L " ++ localAddrStr ++ ":"
          ++ localPortStr ++ ":" ++ remoteAddrStr ++ ":" ++ remotePortStr ++ " -N -f "
          ++ sshUserStr ++ "@" ++ serverStr ++ " -p " ++ pyFStr (sshServerPort cfg)
        let lpn := (pyIntOfStr localPortStr).getD 0
        let needSudo := lpn ≤ 1023
        let sshCommand2 := if needSudo then "sudo " ++ sshCommand else sshCommand
        (effs1 ++ r2.1
          ++ [Effect.printStdout ("Redirecting for " ++ nameStr ++ "\n"),
            Effect.printStdout ("From Local:\n\t" ++ localAddrStr ++ ":" ++ localPortStr ++ "\n"),
            Effect.printStdout ("To Remote:\n\t" ++ remoteAddrStr ++ ":" ++ remotePortStr ++ "\n\n")]
          ++ (if needSudo then [Effect.sudoPrompt] else [])
          ++ [Effect.printStdout ("Executing command:\n\n    " ++ sshCommand2 ++ "\n"),
            Effect.runCommand sshCommand2,
            Effect.printStdout "\nSSH tunnel complete\n\n"], RunOutcome.completed)
      | oc => (effs1 ++ r2.1, oc)

/-- Collapse of runs, helper for the spec reading of identifier derivation. -/
def collapseRunsAux : Bool → List Char → List Char
  | _, [] => []
  | prevSep, c :: rest =>
    if isWordChar c then c :: collapseRunsAux false rest
    else if prevSep then collapseRunsAux true rest
    else '_' :: collapseRunsAux true rest

/-- Spec reading of the identifier derivation, for comparison with the code:
the spec says the derived identifier replaces every RUN of non-word
characters with a single separator. -/
def specRunCollapsedId (s : String) : String := String.mk (collapseRunsAux false s.data)

/-- A registry state as freshly constructed, before any registration. -/
def emptyRegistry : RegistryState :=
  { actionList := [], reservedShortcuts := [], menuOutput := "", scriptName := "/plugin/wedgiebar.py" }

/-- Tunnel config of spec scenario 3 (jump host, explicit port 22). -/
def scenario3Config : TunnelConfig :=
  { name := some "t1", remote_ip := some "10.0.0.5", remote_port := some "443",
    local_address := some "127.0.0.2", local_port := some "8443",
    ssh_server := some "jump.example.com", ssh_port := PyVal.vint 22,
    ssh_user := none, ssh_key := none, ssh_options := none }

/-- Tunnel config of spec scenario 4 (loopback server, ssh_port omitted). -/
def scenario4Config : TunnelConfig :=
  { name := some "t1", remote_ip := some "10.0.0.5", remote_port := some "443",
    local_address := some "127.0.0.2", local_port := some "8443",
    ssh_server := some "127.0.0.1", ssh_port := PyVal.vnone,
    ssh_user := none, ssh_key := none, ssh_options := none }

/-- A tunnel config whose ssh_server entry is missing, other fields valid. -/
def missingServerConfig : TunnelConfig :=
  { name := some "t2", remote_ip := some "10.0.0.5", remote_port := some "443",
    local_address := some "127.0.0.2", local_port := some "8443",
    ssh_server := none, ssh_port := PyVal.vnone,
    ssh_user := none, ssh_key := none, ssh_options := none }

/-- A synthetic ps -ef line for an ssh local forward with pid 100. -/
def psLineA : String :=
  " 501 100 1 0 9:00AM ?? 0:00.01 ssh -i key -Y -L 127.0.0.2:8443:10.0.0.5:443 -N -f user@jump -p 22"

/-- A second synthetic ps -ef line, different forward, same pid 100. -/
def psLineB : String :=
  " 502 100 1 0 9:01AM ?? 0:00.02 ssh -i key -Y -L 127.0.0.3:9443:10.0.0.6:443 -N -f user@jump -p 22"

/-! ## Helper lemmas -/

theorem listIsPrefixOf_self_append (p t : List Char) : listIsPrefixOf p (p ++ t) = true := by
  induction p with
  | nil => simp [listIsPrefixOf]
  | cons c ps ih => simp [listIsPrefixOf, ih]

theorem listContains_self_append (p b : List Char) : listContains p (p ++ b) = true := by
  cases hpb : p ++ b with
  | nil =>
    have hp : p = [] := by cases p <;> simp_all
    subst hp
    simp [listContains, listIsPrefixOf]
  | cons c t =>
    rw [listContains, ← hpb]
    simp [listIsPrefixOf_self_append]

theorem listContains_append_middle (a p b : List Char) :
    listContains p (a ++ (p ++ b)) = true := by
  induction a with
  | nil => simpa using listContains_self_append p b
  | cons c a2 ih =>
    rw [List.cons_append, listContains]
    simp [ih]

theorem strContains_append_middle (a p b : String) :
    strContains (a ++ (p ++ b)) p = true := by
  unfold strContains
  rw [String.data_append, String.data_append]
  exact listContains_append_middle a.data p.data b.data

theorem listContains_singleton_append (c : Char) (x y : List Char) :
    listContains [c] (x ++ y) = (listContains [c] x || listContains [c] y) := by
  induction x with
  | nil => simp [listContains, listIsPrefixOf]
  | cons d x2 ih =>
    rw [List.cons_append, listContains, listContains]
    cases y with
    | nil => simp [listContains, listIsPrefixOf, ih, Bool.or_assoc]
    | cons e y2 => simp [listIsPrefixOf, ih, Bool.or_assoc]

theorem strContains_singleton_append (a b : String) (c : Char) :
    strContains (a ++ b) (String.singleton c) = (strContains a (String.singleton c) || strContains b (String.singleton c)) := by
  unfold strContains
  rw [String.data_append]
  exact listContains_singleton_append c a.data b.data

theorem replaceAux_no_occurrence (pat rep : List Char) :
    ∀ (fuel : Nat) (t : List Char), listContains pat t = false → replaceAux fuel pat rep t = t := by
  intro fuel
  induction fuel with
  | zero => intro t _; rfl
  | succ f ih =>
    intro t h
    cases t with
    | nil => rfl
    | cons c rest =>
      rw [listContains] at h
      have h1 : listIsPrefixOf pat (c :: rest) = false := by
        cases hp : listIsPrefixOf pat (c :: rest) <;> simp_all
      have h2 : listContains pat rest = false := by
        cases hp : listContains pat rest <;> simp_all
      rw [replaceAux]
      simp [h1, ih rest h2]

theorem pyReplace_no_occurrence (s pat rep : String) (h : strContains s pat = false) :
    pyReplace s pat rep = s := by
  unfold pyReplace
  rw [replaceAux_no_occurrence pat.data rep.data s.data.length s.data h]

theorem pySubNonWordUnderscore_idem (s : String) :
    pySubNonWordUnderscore (pySubNonWordUnderscore s) = pySubNonWordUnderscore s := by
  unfold pySubNonWordUnderscore
  simp only [List.map_map]
  congr 1
  apply List.map_congr_left
  intro c _
  by_cases h : isWordChar c = true
  · simp [Function.comp, h]
  · simp [Function.comp, h]

theorem alookup_ainsert_self {κ α : Type} [BEq κ] [LawfulBEq κ]
    (l : List (κ × α)) (k : κ) (v : α) : alookup (ainsert l k v) k = some v := by
  induction l with
  | nil => simp [ainsert, alookup]
  | cons p rest ih =>
    obtain ⟨k2, v2⟩ := p
    by_cases h : (k2 == k) = true
    · simp [ainsert, alookup, h]
    · simp only [ainsert, alookup]
      rw [if_neg h, alookup, if_neg h]
      exact ih

theorem ainsert_eq_append {κ α : Type} [BEq κ]
    (l : List (κ × α)) (k : κ) (v : α) (h : alookup l k = none) :
    ainsert l k v = l ++ [(k, v)] := by
  induction l with
  | nil => simp [ainsert]
  | cons p rest ih =>
    obtain ⟨k2, v2⟩ := p
    rw [alookup] at h
    by_cases hk : (k2 == k) = true
    · rw [if_pos hk] at h; exact absurd h (by simp)
    · rw [if_neg hk] at h
      rw [ainsert, if_neg hk, List.cons_append, ih h]

theorem alookup_append {κ α : Type} [BEq κ] (a b : List (κ × α)) (k : κ) :
    alookup (a ++ b) k = match alookup a k with
      | some v => some v
      | none => alookup b k := by
  induction a with
  | nil => simp [alookup]
  | cons p rest ih =>
    obtain ⟨k2, v2⟩ := p
    by_cases hk : (k2 == k) = true
    · simp [alookup, hk]
    · simp only [List.cons_append, alookup]
      rw [if_neg hk, if_neg hk]
      exact ih

theorem killedPIDs_append (a b : List Effect) :
    killedPIDs (a ++ b) = killedPIDs a ++ killedPIDs b := by
  unfold killedPIDs
  rw [List.filterMap_append]

theorem tunnelPIDDict_fold :
    ∀ (ls : List String) (acc : List (Nat × String)),
      (∀ l ∈ ls, alookup acc (pidKey l) = none) →
      (ls.map pidKey).Nodup →
      ls.foldl (fun d l => ainsert d (pidKey l) l) acc = acc ++ ls.map (fun l => (pidKey l, l)) := by
  intro ls
  induction ls with
  | nil => intro acc _ _; simp
  | cons l ls2 ih =>
    intro acc hfresh hnd
    rw [List.foldl_cons]
    rw [ainsert_eq_append acc (pidKey l) l (hfresh l (List.mem_cons_self l ls2))]
    rw [List.map_cons, List.nodup_cons] at hnd
    have hacc2 : ∀ l2 ∈ ls2, alookup (acc ++ [(pidKey l, l)]) (pidKey l2) = none := by
      intro l2 hl2
      rw [alookup_append]
      rw [hfresh l2 (List.mem_cons_of_mem l hl2)]
      have hne : (pidKey l == pidKey l2) = false := by
        have : pidKey l2 ≠ pidKey l := by
          intro heq
          exact hnd.1 (heq ▸ List.mem_map_of_mem pidKey hl2)
        simp [this.symm]
      simp [alookup, hne]
    rw [ih (acc ++ [(pidKey l, l)]) hacc2 hnd.2]
    simp

theorem killLoop_wellFormed :
    ∀ (entries : List (Nat × String)),
      (∀ e ∈ entries, wellFormedTunnelLine e.2 = true) →
      (killLoop entries).2 = RunOutcome.completed ∧
        killedPIDs (killLoop entries).1 = entries.map Prod.fst := by
  intro entries
  induction entries with
  | nil => intro _; simp [killLoop, killedPIDs]
  | cons e rest ih =>
    intro hwf
    obtain ⟨pid, line⟩ := e
    have hl : wellFormedTunnelLine line = true := hwf (pid, line) (List.mem_cons_self _ _)
    unfold wellFormedTunnelLine at hl
    obtain ⟨hrec, hpids⟩ := ih (fun x hx => hwf x (List.mem_cons_of_mem _ hx))
    cases htok : hostPortFindall line.data with
    | nil => rw [htok] at hl; exact absurd hl (by simp)
    | cons h1 t1 =>
      cases t1 with
      | nil => rw [htok] at hl; exact absurd hl (by simp)
      | cons h2 t2 =>
        rw [htok] at hl
        cases hsrv : dashFFind line.data with
        | none => rw [hsrv] at hl; exact absurd hl (by simp)
        | some srv =>
          rw [killLoop, htok, hsrv]
          constructor
          · exact hrec
          · simp only [killedPIDs, List.filterMap_cons] at hpids ⊢
            simp only [List.map_cons]
            rw [hpids]

theorem doTerminateTunnelsLines_kills (lines : List String) (specific : String)
    (hwf : ∀ l ∈ lines.filter (tunnelLineMatches specific), wellFormedTunnelLine l = true)
    (hnd : ((lines.filter (tunnelLineMatches specific)).map pidKey).Nodup) :
    killedPIDs (doTerminateTunnelsLines lines specific).1
        = (lines.filter (tunnelLineMatches specific)).map pidKey ∧
      (doTerminateTunnelsLines lines specific).2 = RunOutcome.completed := by
  have hdict : tunnelPIDDict lines specific
      = (lines.filter (tunnelLineMatches specific)).map (fun l => (pidKey l, l)) := by
    unfold tunnelPIDDict
    rw [tunnelPIDDict_fold (lines.filter (tunnelLineMatches specific)) []
      (fun l _ => rfl) hnd]
    simp
  unfold doTerminateTunnelsLines
  rw [hdict]
  cases hm : lines.filter (tunnelLineMatches specific) with
  | nil => simp [killedPIDs, displayNotification]
  | cons m ms =>
    have hwf2 : ∀ e ∈ (m :: ms).map (fun l => (pidKey l, l)), wellFormedTunnelLine e.2 = true := by
      intro e he
      rw [List.mem_map] at he
      obtain ⟨l, hl, rfl⟩ := he
      exact hwf l (hm ▸ hl)
    obtain ⟨hoc, hk⟩ := killLoop_wellFormed ((m :: ms).map (fun l => (pidKey l, l))) hwf2
    simp only [List.map_cons, List.isEmpty_cons, Bool.false_eq_true, if_false]
    rw [List.map_cons] at hoc hk
    rw [hoc]
    constructor
    · show killedPIDs (Effect.sudoPrompt :: (killLoop _).1 ++ [displayNotification "Tunnels terminated" none]) = _
      rw [List.cons_append, killedPIDs, List.filterMap_cons]
      simp only []
      rw [← killedPIDs]
      rw [killedPIDs_append, hk]
      simp [killedPIDs, displayNotification]
    · rfl

/-! ## Registry claims -/

/-- Claim C1, counterexample: for the display name "a, b" the identifier the
code derives in make_action is "a__b" (one underscore per non-word char),
whereas replacing every RUN of non-word characters with a single separator
gives "a_b"; so the claimed derivation rule does not describe the code. -/
theorem claim_C1_counterexample :
    specRunCollapsedId "a, b" = "a_b" ∧
    (makeAction emptyRegistry "a, b" (some CallBehavior.ok) none 1 false false none "" none).2
      = Except.ok (some { id := "a__b", name := "a, b", action := CallBehavior.ok }) ∧
    pySubNonWordUnderscore "a, b" ≠ specRunCollapsedId "a, b" :=
  ⟨rfl, rfl, by decide⟩

/-- Claim C1 (amended): for every display name passed to make_action without
an explicit action_id, the auto-derived identifier is the pure function of
the name that replaces each individual non-word character with an underscore
(runs are not collapsed), and the re-normalization applied at dispatch time
maps the derived identifier to itself. -/
theorem claim_C1 (st : RegistryState) (name : String) (beh : CallBehavior) :
    ∃ st2, makeAction st name (some beh) none 1 false false none "" none
        = (st2, Except.ok (some { id := pySubNonWordUnderscore name, name := name, action := beh })) ∧
      pySubNonWordUnderscore (pySubNonWordUnderscore name) = pySubNonWordUnderscore name :=
  ⟨_, rfl, pySubNonWordUnderscore_idem name⟩

theorem makeAction_shortcut_collision (st : RegistryState) (name : String)
    (action : Option CallBehavior) (actionId : Option String) (menuDepth : Nat)
    (alternate terminal : Bool) (textColor : Option String) (sc : String)
    (shell : Option String) (prev : String)
    (hsc : sc ≠ "") (hfound : alookup st.reservedShortcuts sc = some prev) :
    makeAction st name action actionId menuDepth alternate terminal textColor sc shell
      = (st, Except.error (PyError.valueError ("Keyboard shortcut \"" ++ sc
          ++ "\" already assigned to action \"" ++ prev
          ++ "\" and cannot be mapped to action " ++ name))) := by
  simp only [makeAction, bne, hsc, hfound]
  simp [hsc]

/-- Claim C2: registering an action whose non-empty keyboard shortcut is
already reserved for a previously registered action with a different name
raises ValueError, and the registry state, in particular the menu buffer, is
returned unchanged, so no menu line was appended for the second
registration. -/
theorem claim_C2 (st : RegistryState) (name : String) (action : Option CallBehavior)
    (actionId : Option String) (menuDepth : Nat) (alternate terminal : Bool)
    (textColor : Option String) (sc : String) (shell : Option String) (prev : String)
    (hsc : sc ≠ "") (hfound : alookup st.reservedShortcuts sc = some prev)
    (_hdiff : prev ≠ name) :
    makeAction st name action actionId menuDepth alternate terminal textColor sc shell
      = (st, Except.error (PyError.valueError ("Keyboard shortcut \"" ++ sc
          ++ "\" already assigned to action \"" ++ prev
          ++ "\" and cannot be mapped to action " ++ name))) ∧
    (makeAction st name action actionId menuDepth alternate terminal textColor sc shell).1.menuOutput
      = st.menuOutput := by
  have h := makeAction_shortcut_collision st name action actionId menuDepth alternate terminal
    textColor sc shell prev hsc hfound
  exact ⟨h, by rw [h]⟩

/-- Claim C2 witness: spec scenario 2, a second registration reusing the
already reserved shortcut fails with the recorded ValueError and the state is
untouched. -/
theorem claim_C2_witness :
    (("Cmd+S" : String) ≠ "" ∧
      alookup ({ emptyRegistry with reservedShortcuts := [("Cmd+S", "First")] } : RegistryState).reservedShortcuts "Cmd+S" = some "First" ∧
      ("First" : String) ≠ "Second") ∧
    makeAction { emptyRegistry with reservedShortcuts := [("Cmd+S", "First")] } "Second"
        (some CallBehavior.ok) none 1 false false none "Cmd+S" none
      = ({ emptyRegistry with reservedShortcuts := [("Cmd+S", "First")] },
        Except.error (PyError.valueError "Keyboard shortcut \"Cmd+S\" already assigned to action \"First\" and cannot be mapped to action Second")) :=
  ⟨⟨by decide, by decide, by decide⟩,
    (claim_C2 { emptyRegistry with reservedShortcuts := [("Cmd+S", "First")] } "Second"
      (some CallBehavior.ok) none 1 false false none "Cmd+S" none "First"
      (by decide) (by decide) (by decide)).1⟩

/-- Claim C3: dispatching an identifier whose normalization is not a key of
the action map raises without invoking any callable and returns the registry
state unchanged, with no effects at all. -/
theorem claim_C3 (st : RegistryState) (a : String) (ha : a ≠ "")
    (hmiss : alookup st.actionList (pySubNonWordUnderscore a) = none) :
    executePlugin st a = (st, [], RunOutcome.raised (PyError.exception "Not a valid action")) := by
  have hb : (a == "") = false := by simp [ha]
  simp [executePlugin, hb, hmiss]

/-- Claim C3 witness: dispatching "bogus" on a fresh registry. -/
theorem claim_C3_witness :
    (("bogus" : String) ≠ "" ∧
      alookup emptyRegistry.actionList (pySubNonWordUnderscore "bogus") = none) ∧
    executePlugin emptyRegistry "bogus"
      = (emptyRegistry, [], RunOutcome.raised (PyError.exception "Not a valid action")) :=
  ⟨⟨by decide, rfl⟩, claim_C3 emptyRegistry "bogus" (by decide) rfl⟩

/-- Claim C4: a registered callable that raises during dispatch is caught at
the dispatch boundary; the traceback text is copied to the clipboard, a beep
and a failure notification naming the exception type follow, the process
exits with status 1, and the callable is invoked exactly once (no retry).
The quote-free hypothesis on the type name reflects that Python exception
class names contain no double quote. -/
theorem claim_C4 (st : RegistryState) (a exn tr : String) (obj : ActionObject)
    (ha : a ≠ "")
    (hfind : alookup st.actionList (pySubNonWordUnderscore a) = some obj)
    (hbeh : obj.action = CallBehavior.raiseExn exn tr)
    (hq : strContains exn "\"" = false) :
    executePlugin st a = (st,
      [Effect.callAction (pySubNonWordUnderscore a),
        Effect.copyClipboard tr,
        Effect.beep,
        Effect.notification ("Failed with an exception (" ++ exn ++ "): check traceback in clipboard") titleDefault],
      RunOutcome.exited 1) ∧
    strContains ("Failed with an exception (" ++ exn ++ "): check traceback in clipboard") exn = true ∧
    countCallActions (executePlugin st a).2.1 = 1 := by
  have hb : (a == "") = false := by simp [ha]
  have hq2 : strContains ("Failed with an exception (" ++ exn ++ "): check traceback in clipboard") "\"" = false := by
    simp only [show ("\"" : String) = String.singleton '"' from rfl] at hq ⊢
    rw [strContains_singleton_append, strContains_singleton_append]
    rw [hq]
    rw [show strContains "Failed with an exception (" (String.singleton '"') = false from by decide]
    rw [show strContains "): check traceback in clipboard" (String.singleton '"') = false from by decide]
    rfl
  have hmain : executePlugin st a = (st,
      [Effect.callAction (pySubNonWordUnderscore a),
        Effect.copyClipboard tr,
        Effect.beep,
        Effect.notification ("Failed with an exception (" ++ exn ++ "): check traceback in clipboard") titleDefault],
      RunOutcome.exited 1) := by
    simp only [executePlugin, hb, Bool.false_eq_true, if_false, hfind, hbeh,
      failActionWithException, displayNotificationError, displayNotification, hq2]
    simp [pyReplace_no_occurrence _ _ "\\\"" hq2, titleDefault]
  refine ⟨hmain, ?_, ?_⟩
  · rw [String.append_assoc]
    exact strContains_append_middle "Failed with an exception (" exn "): check traceback in clipboard"
  · rw [hmain]
    rfl

/-- Claim C4 witness: a registry whose single action raises ValueError. -/
theorem claim_C4_witness :
    (("Oops" : String) ≠ "" ∧
      alookup ({ emptyRegistry with actionList := [("Oops",
          { id := "Oops", name := "Oops", action := CallBehavior.raiseExn "ValueError" "Traceback text" })] } : RegistryState).actionList
          (pySubNonWordUnderscore "Oops")
        = some { id := "Oops", name := "Oops", action := CallBehavior.raiseExn "ValueError" "Traceback text" } ∧
      strContains "ValueError" "\"" = false) ∧
    (executePlugin { emptyRegistry with actionList := [("Oops",
        { id := "Oops", name := "Oops", action := CallBehavior.raiseExn "ValueError" "Traceback text" })] } "Oops"
      = ({ emptyRegistry with actionList := [("Oops",
          { id := "Oops", name := "Oops", action := CallBehavior.raiseExn "ValueError" "Traceback text" })] },
        [Effect.callAction (pySubNonWordUnderscore "Oops"),
          Effect.copyClipboard "Traceback text",
          Effect.beep,
          Effect.notification ("Failed with an exception (" ++ "ValueError" ++ "): check traceback in clipboard") titleDefault],
        RunOutcome.exited 1) ∧
      strContains ("Failed with an exception (" ++ "ValueError" ++ "): check traceback in clipboard") "ValueError" = true ∧
      countCallActions (executePlugin { emptyRegistry with actionList := [("Oops",
          { id := "Oops", name := "Oops", action := CallBehavior.raiseExn "ValueError" "Traceback text" })] } "Oops").2.1 = 1) :=
  ⟨⟨by decide, by decide, by decide⟩,
    claim_C4 { emptyRegistry with actionList := [("Oops",
        { id := "Oops", name := "Oops", action := CallBehavior.raiseExn "ValueError" "Traceback text" })] }
      "Oops" "ValueError" "Traceback text"
      { id := "Oops", name := "Oops", action := CallBehavior.raiseExn "ValueError" "Traceback text" }
      (by decide) (by decide) (by decide) (by decide)⟩

/-- Claim C9, counterexample: dispatching an unknown identifier merely raises
Exception; the effect trace is empty, so in particular no host-OS
notification is emitted, contradicting the claim that the failure is
reported through the notification channel. -/
theorem claim_C9_counterexample :
    executePlugin emptyRegistry "no_such_action"
      = (emptyRegistry, [], RunOutcome.raised (PyError.exception "Not a valid action")) ∧
    notificationsOf (executePlugin emptyRegistry "no_such_action").2.1 = [] :=
  ⟨rfl, rfl⟩

/-- Claim C9 (amended): for every identifier absent from the registry the
dispatch failure is fatal, surfaced as an uncaught raised exception (not via
a notification: the effect trace carries no notification), and the failure is
not retried since no callable is ever invoked. -/
theorem claim_C9 (st : RegistryState) (a : String) (ha : a ≠ "")
    (hmiss : alookup st.actionList (pySubNonWordUnderscore a) = none) :
    (executePlugin st a).2.2 = RunOutcome.raised (PyError.exception "Not a valid action") ∧
    notificationsOf (executePlugin st a).2.1 = [] ∧
    countCallActions (executePlugin st a).2.1 = 0 := by
  have hb : (a == "") = false := by simp [ha]
  have hmain : executePlugin st a
      = (st, [], RunOutcome.raised (PyError.exception "Not a valid action")) := by
    simp [executePlugin, hb, hmiss]
  rw [hmain]
  exact ⟨rfl, rfl, rfl⟩

/-- Claim C9 witness: the unknown identifier "nope" on a fresh registry. -/
theorem claim_C9_witness :
    (("nope" : String) ≠ "" ∧
      alookup emptyRegistry.actionList (pySubNonWordUnderscore "nope") = none) ∧
    ((executePlugin emptyRegistry "nope").2.2
        = RunOutcome.raised (PyError.exception "Not a valid action") ∧
      notificationsOf (executePlugin emptyRegistry "nope").2.1 = [] ∧
      countCallActions (executePlugin emptyRegistry "nope").2.1 = 0) :=
  ⟨⟨by decide, rfl⟩, claim_C9 emptyRegistry "nope" (by decide) rfl⟩

/-- Claim C10: a make_action call with a non-empty unreserved keyboard
shortcut and an absent callable reserves the shortcut while creating no
dispatch entry, and any later registration reusing the shortcut raises the
duplicate-shortcut ValueError even though the first entry is not
dispatchable. -/
theorem claim_C10 (st : RegistryState) (name : String) (actionId : Option String)
    (menuDepth : Nat) (alternate terminal : Bool) (textColor : Option String)
    (sc : String) (shell : Option String)
    (hsc : sc ≠ "") (hfree : alookup st.reservedShortcuts sc = none) :
    (makeAction st name none actionId menuDepth alternate terminal textColor sc shell).2
      = Except.ok none ∧
    (makeAction st name none actionId menuDepth alternate terminal textColor sc shell).1.reservedShortcuts
      = ainsert st.reservedShortcuts sc name ∧
    (makeAction st name none actionId menuDepth alternate terminal textColor sc shell).1.actionList
      = st.actionList ∧
    ∀ (name2 : String) (action2 : Option CallBehavior) (actionId2 : Option String)
      (menuDepth2 : Nat) (alternate2 terminal2 : Bool) (textColor2 : Option String)
      (shell2 : Option String),
      makeAction (makeAction st name none actionId menuDepth alternate terminal textColor sc shell).1
          name2 action2 actionId2 menuDepth2 alternate2 terminal2 textColor2 sc shell2
        = ((makeAction st name none actionId menuDepth alternate terminal textColor sc shell).1,
          Except.error (PyError.valueError ("Keyboard shortcut \"" ++ sc
            ++ "\" already assigned to action \"" ++ name
            ++ "\" and cannot be mapped to action " ++ name2))) := by
  have hmain : makeAction st name none actionId menuDepth alternate terminal textColor sc shell
      = makeActionFinish { st with reservedShortcuts := ainsert st.reservedShortcuts sc name }
          name none actionId terminal textColor shell
          (if menuDepth != 0 then strRepeat "--" menuDepth ++ " " ++ name else name)
          ((if alternate then " alternate=true" else "") ++ " | key=" ++ sc) := by
    simp only [makeAction, bne, hsc, hfree]
    simp [hsc]
  rw [hmain]
  refine ⟨?_, ?_, ?_, ?_⟩
  · cases textColor <;> rfl
  · cases textColor <;> rfl
  · cases textColor <;> rfl
  · intro name2 action2 actionId2 menuDepth2 alternate2 terminal2 textColor2 shell2
    apply makeAction_shortcut_collision
    · exact hsc
    · have hres : (makeActionFinish { st with reservedShortcuts := ainsert st.reservedShortcuts sc name }
          name none actionId terminal textColor shell
          (if menuDepth != 0 then strRepeat "--" menuDepth ++ " " ++ name else name)
          ((if alternate then " alternate=true" else "") ++ " | key=" ++ sc)).1.reservedShortcuts
          = ainsert st.reservedShortcuts sc name := by
        cases textColor <;> rfl
      rw [hres]
      exact alookup_ainsert_self st.reservedShortcuts sc name

/-- Claim C10 witness: a disabled informational entry with shortcut Cmd+I
reserves the shortcut, and a later real registration with Cmd+I fails. -/
theorem claim_C10_witness :
    (("Cmd+I" : String) ≠ "" ∧ alookup emptyRegistry.reservedShortcuts "Cmd+I" = none) ∧
    ((makeAction emptyRegistry "Info" none none 1 false false none "Cmd+I" none).2
        = Except.ok none ∧
      (makeAction emptyRegistry "Info" none none 1 false false none "Cmd+I" none).1.reservedShortcuts
        = ainsert emptyRegistry.reservedShortcuts "Cmd+I" "Info" ∧
      (makeAction emptyRegistry "Info" none none 1 false false none "Cmd+I" none).1.actionList
        = emptyRegistry.actionList ∧
      makeAction (makeAction emptyRegistry "Info" none none 1 false false none "Cmd+I" none).1
          "Other" (some CallBehavior.ok) none 1 false false none "Cmd+I" none
        = ((makeAction emptyRegistry "Info" none none 1 false false none "Cmd+I" none).1,
          Except.error (PyError.valueError ("Keyboard shortcut \"" ++ "Cmd+I"
            ++ "\" already assigned to action \"" ++ "Info"
            ++ "\" and cannot be mapped to action " ++ "Other")))) :=
  ⟨⟨by decide, rfl⟩,
    by
      obtain ⟨h1, h2, h3, h4⟩ := claim_C10 emptyRegistry "Info" none 1 false false none
        "Cmd+I" none (by decide) rfl
      exact ⟨h1, h2, h3, h4 "Other" (some CallBehavior.ok) none 1 false false none none⟩⟩


/-! ## Tunnel claims -/

/-- Claim C5: a tunnel config whose ssh_server is a loopback address (starts
with "127.") and whose ssh_port is omitted (falsy, so the int default 22
applies) is rejected by the self-loop assertion before any side effect, even
when every other field is valid. -/
theorem claim_C5 (cfg : TunnelConfig)
    (localUser defaultSshKey loopbackInterface ifconfigOut psOut : String)
    (hname : optTruthy cfg.name = true)
    (hserver : ∃ sv, cfg.ssh_server = some sv ∧ sv ≠ "" ∧ strStartsWith sv "127." = true)
    (hport : cfg.ssh_port.truthy = false)
    (hra : optTruthy cfg.remote_ip = true)
    (hrp : ∃ rp n, cfg.remote_port = some rp ∧ rp ≠ "" ∧ pyIntOfStr rp = some n ∧ n ≠ 0)
    (hla : optTruthy cfg.local_address = true)
    (hlp : ∃ lp m, cfg.local_port = some lp ∧ lp ≠ "" ∧ pyIntOfStr lp = some m ∧ m ≠ 0) :
    doExecuteSshTunnel cfg localUser defaultSshKey loopbackInterface ifconfigOut psOut
      = ([], RunOutcome.raised (PyError.assertionError selfLoopMsg)) := by
  obtain ⟨sv, hsv, hsvne, hsv127⟩ := hserver
  obtain ⟨rp, n, hrp1, hrpne, hrp2, hrp3⟩ := hrp
  obtain ⟨lp, m, hlp1, hlpne, hlp2, hlp3⟩ := hlp
  have e2 : sshServerPort cfg = PyVal.vint 22 := by simp [sshServerPort, hport]
  have t1 : (!optTruthy cfg.name) = false := by rw [hname]; rfl
  have t2 : (!optTruthy cfg.ssh_server) = false := by rw [hsv]; simp [optTruthy, hsvne]
  have t3 : (!(sshServerPort cfg).truthy) = false := by rw [e2]; decide
  have t4 : (pyIntConv (sshServerPort cfg)).isNone = false := by rw [e2]; decide
  have t5 : ((pyIntConv (sshServerPort cfg)).getD 0 == 0) = false := by rw [e2]; decide
  have t6 : (!optTruthy cfg.remote_ip) = false := by rw [hra]; rfl
  have t7 : (!optTruthy cfg.remote_port) = false := by rw [hrp1]; simp [optTruthy, hrpne]
  have t8 : (pyIntOfStr (cfg.remote_port.getD "")).isNone = false := by
    rw [hrp1]; simp [hrp2]
  have t9 : ((pyIntOfStr (cfg.remote_port.getD "")).getD 0 == 0) = false := by
    rw [hrp1]; simp [hrp2, hrp3]
  have e5 : pyOrOpt cfg.local_port cfg.remote_port = some lp := by
    simp [pyOrOpt, hlp1, optTruthy, hlpne]
  have t10 : (!optTruthy cfg.local_address) = false := by rw [hla]; rfl
  have t11 : (!optTruthy (pyOrOpt cfg.local_port cfg.remote_port)) = false := by
    rw [e5]; simp [optTruthy, hlpne]
  have t12 : (pyIntOfStr ((pyOrOpt cfg.local_port cfg.remote_port).getD "")).isNone = false := by
    rw [e5]; simp [hlp2]
  have t13 : ((pyIntOfStr ((pyOrOpt cfg.local_port cfg.remote_port).getD "")).getD 0 == 0) = false := by
    rw [e5]; simp [hlp2, hlp3]
  have t14 : (pyEqInt (sshServerPort cfg) 22 && strStartsWith (cfg.ssh_server.getD "") "127.") = true := by
    rw [e2, hsv]; simp [pyEqInt, hsv127]
  have hpre : tunnelPreflight cfg = some (PyError.assertionError selfLoopMsg) := by
    simp only [tunnelPreflight, t1, t2, t3, t4, t5, t6, t7, t8, t9, t10, t11, t12, t13, t14]
    simp
  simp [doExecuteSshTunnel, hpre]

/-- Claim C5 witness: spec scenario 4. -/
theorem claim_C5_witness :
    (optTruthy scenario4Config.name = true ∧
      (∃ sv, scenario4Config.ssh_server = some sv ∧ sv ≠ "" ∧ strStartsWith sv "127." = true) ∧
      scenario4Config.ssh_port.truthy = false ∧
      optTruthy scenario4Config.remote_ip = true ∧
      (∃ rp n, scenario4Config.remote_port = some rp ∧ rp ≠ "" ∧ pyIntOfStr rp = some n ∧ n ≠ 0) ∧
      optTruthy scenario4Config.local_address = true ∧
      (∃ lp m, scenario4Config.local_port = some lp ∧ lp ≠ "" ∧ pyIntOfStr lp = some m ∧ m ≠ 0)) ∧
    doExecuteSshTunnel scenario4Config "user" "id_rsa" "lo0" "" ""
      = ([], RunOutcome.raised (PyError.assertionError selfLoopMsg)) :=
  ⟨⟨by decide, ⟨"127.0.0.1", rfl, by decide, by decide⟩, by decide, by decide,
      ⟨"443", 443, rfl, by decide, by decide, by decide⟩, by decide,
      ⟨"8443", 8443, rfl, by decide, by decide, by decide⟩⟩,
    claim_C5 scenario4Config "user" "id_rsa" "lo0" "" "" (by decide)
      ⟨"127.0.0.1", rfl, by decide, by decide⟩ (by decide) (by decide)
      ⟨"443", 443, rfl, by decide, by decide, by decide⟩ (by decide)
      ⟨"8443", 8443, rfl, by decide, by decide, by decide⟩⟩

theorem tunnelPreflight_none_implies (cfg : TunnelConfig)
    (h : tunnelPreflight cfg = none) :
    optTruthy cfg.ssh_server = true ∧
    (pyIntOfStr (cfg.remote_port.getD "")).isSome = true ∧
    optTruthy cfg.local_address = true := by
  unfold tunnelPreflight at h
  by_cases c1 : (!optTruthy cfg.name) = true
  · rw [if_pos c1] at h; exact absurd h (by simp)
  rw [if_neg c1] at h
  by_cases c2 : (!optTruthy cfg.ssh_server) = true
  · rw [if_pos c2] at h; exact absurd h (by simp)
  rw [if_neg c2] at h
  by_cases c3 : (!(sshServerPort cfg).truthy) = true
  · rw [if_pos c3] at h; exact absurd h (by simp)
  rw [if_neg c3] at h
  by_cases c4 : (pyIntConv (sshServerPort cfg)).isNone = true
  · rw [if_pos c4] at h; exact absurd h (by simp)
  rw [if_neg c4] at h
  by_cases c5 : ((pyIntConv (sshServerPort cfg)).getD 0 == 0) = true
  · rw [if_pos c5] at h; exact absurd h (by simp)
  rw [if_neg c5] at h
  by_cases c6 : (!optTruthy cfg.remote_ip) = true
  · rw [if_pos c6] at h; exact absurd h (by simp)
  rw [if_neg c6] at h
  by_cases c7 : (!optTruthy cfg.remote_port) = true
  · rw [if_pos c7] at h; exact absurd h (by simp)
  rw [if_neg c7] at h
  by_cases c8 : (pyIntOfStr (cfg.remote_port.getD "")).isNone = true
  · rw [if_pos c8] at h; exact absurd h (by simp)
  rw [if_neg c8] at h
  by_cases c9 : ((pyIntOfStr (cfg.remote_port.getD "")).getD 0 == 0) = true
  · rw [if_pos c9] at h; exact absurd h (by simp)
  rw [if_neg c9] at h
  by_cases c10 : (!optTruthy cfg.local_address) = true
  · rw [if_pos c10] at h; exact absurd h (by simp)
  refine ⟨?_, ?_, ?_⟩
  · revert c2; cases optTruthy cfg.ssh_server <;> simp
  · revert c8; cases pyIntOfStr (cfg.remote_port.getD "") <;> simp
  · revert c10; cases optTruthy cfg.local_address <;> simp

/-- Claim C7: a tunnel config with a missing SSH server address, or a
non-numeric remote port, or a missing local loopback address makes
do_execute_ssh_tunnel raise during the assertion chain with an empty effect
trace: nothing runs before the loopback verification, the process scan or the
SSH launch. -/
theorem claim_C7 (cfg : TunnelConfig)
    (localUser defaultSshKey loopbackInterface ifconfigOut psOut : String)
    (h : optTruthy cfg.ssh_server = false
      ∨ (∃ rp, cfg.remote_port = some rp ∧ pyIntOfStr rp = none)
      ∨ optTruthy cfg.local_address = false) :
    ∃ e, doExecuteSshTunnel cfg localUser defaultSshKey loopbackInterface ifconfigOut psOut
      = ([], RunOutcome.raised e) := by
  have hne : tunnelPreflight cfg ≠ none := by
    intro hnone
    obtain ⟨h1, h2, h3⟩ := tunnelPreflight_none_implies cfg hnone
    rcases h with hs | ⟨rp, hrp, hbad⟩ | hl
    · rw [h1] at hs; exact absurd hs (by simp)
    · rw [hrp] at h2
      simp only [Option.getD_some] at h2
      rw [hbad] at h2
      exact absurd h2 (by simp)
    · rw [h3] at hl; exact absurd hl (by simp)
  obtain ⟨e, he⟩ := Option.ne_none_iff_exists.mp hne
  exact ⟨e, by simp [doExecuteSshTunnel, ← he]⟩

/-- Claim C7 witness: a config with the ssh_server field absent and every
other field filled in. -/
theorem claim_C7_witness :
    (optTruthy missingServerConfig.ssh_server = false) ∧
    (∃ e, doExecuteSshTunnel missingServerConfig "user" "id_rsa" "lo0" "" ""
      = ([], RunOutcome.raised e)) :=
  ⟨by decide,
    claim_C7 missingServerConfig "user" "id_rsa" "lo0" "" "" (Or.inl (by decide))⟩

/-- Claim C8: spec scenario 3. The config passes the whole preflight chain
(so in particular it is not rejected by the self-loop check), execution
completes, and the single launched shell command contains the local-forward
fragment -L 127.0.0.2:8443:10.0.0.5:443, whatever the configured default ssh
user and key are. -/
theorem claim_C8 (user key : String) :
    tunnelPreflight scenario3Config = none ∧
    (doExecuteSshTunnel scenario3Config user key "lo0" "127.0.0.2" "").2 = RunOutcome.completed ∧
    ∃ cmd, launchCommands (doExecuteSshTunnel scenario3Config user key "lo0" "127.0.0.2" "").1 = [cmd] ∧
      strContains cmd "-L 127.0.0.2:8443:10.0.0.5:443" = true := by
  refine ⟨by decide, rfl,
    ⟨"ssh " ++ ("-i " ++ key ++ " -o StrictHostKeyChecking=no") ++ " -Y -L " ++ "127.0.0.2"
      ++ ":" ++ "8443" ++ ":" ++ "10.0.0.5" ++ ":" ++ "443" ++ " -N -f " ++ user ++ "@"
      ++ "jump.example.com" ++ " -p " ++ "22", rfl, ?_⟩⟩
  have hsplit : ("ssh " ++ ("-i " ++ key ++ " -o StrictHostKeyChecking=no") ++ " -Y -L " ++ "127.0.0.2"
        ++ ":" ++ "8443" ++ ":" ++ "10.0.0.5" ++ ":" ++ "443" ++ " -N -f " ++ user ++ "@"
        ++ "jump.example.com" ++ " -p " ++ "22")
      = ("ssh " ++ ("-i " ++ key ++ " -o StrictHostKeyChecking=no") ++ " -Y ")
        ++ ("-L 127.0.0.2:8443:10.0.0.5:443"
          ++ (" -N -f " ++ user ++ "@" ++ "jump.example.com" ++ " -p " ++ "22")) := by
    apply String.ext
    simp only [String.data_append, List.append_assoc]
    rfl
  rw [hsplit]
  exact strContains_append_middle _ _ _

/-- Claim C6, counterexample: a synthetic ps output whose two lines both
match the SSH-forward pattern but carry the same pid 100. The dict keyed by
pid collapses them, so only one kill attempt happens although two lines
match, refuting the claim that N matching lines always yield N kill
attempts. -/
theorem claim_C6_counterexample :
    ((pySplitLines (psLineA ++ "\n" ++ psLineB)).filter
        (tunnelLineMatches (specificLoopback PyVal.vnone PyVal.vnone))).length = 2 ∧
    killedPIDs (doTerminateTunnels (psLineA ++ "\n" ++ psLineB) PyVal.vnone PyVal.vnone).1 = [100] ∧
    (killedPIDs (doTerminateTunnels (psLineA ++ "\n" ++ psLineB) PyVal.vnone PyVal.vnone).1).length
      ≠ ((pySplitLines (psLineA ++ "\n" ++ psLineB)).filter
        (tunnelLineMatches (specificLoopback PyVal.vnone PyVal.vnone))).length :=
  ⟨rfl, rfl, by decide⟩

/-- Claim C6 (amended): when the matching lines of the process-list text have
pairwise-distinct extracted pids and each carries two host:port tokens and an
-f server token, the termination routine kills exactly one pid per matching
line (so N matching lines yield N kill attempts, in order), the M non-matching
lines are ignored, the routine completes, and the multiset of killed pids is
invariant under any reordering of the lines. Without the distinct-pid
hypothesis the dict keyed by pid collapses duplicates. -/
theorem claim_C6 (text : String) (ip port : PyVal)
    (hwf : ∀ l ∈ (pySplitLines text).filter (tunnelLineMatches (specificLoopback ip port)),
      wellFormedTunnelLine l = true)
    (hnd : (((pySplitLines text).filter (tunnelLineMatches (specificLoopback ip port))).map pidKey).Nodup) :
    killedPIDs (doTerminateTunnels text ip port).1
        = ((pySplitLines text).filter (tunnelLineMatches (specificLoopback ip port))).map pidKey ∧
    (doTerminateTunnels text ip port).2 = RunOutcome.completed ∧
    ∀ lines2, (pySplitLines text).Perm lines2 →
      (killedPIDs (doTerminateTunnelsLines lines2 (specificLoopback ip port)).1).Perm
        (killedPIDs (doTerminateTunnels text ip port).1) := by
  obtain ⟨hk, hoc⟩ := doTerminateTunnelsLines_kills (pySplitLines text)
    (specificLoopback ip port) hwf hnd
  refine ⟨hk, hoc, ?_⟩
  intro lines2 hperm
  have hpf : ((pySplitLines text).filter (tunnelLineMatches (specificLoopback ip port))).Perm
      (lines2.filter (tunnelLineMatches (specificLoopback ip port))) :=
    hperm.filter (tunnelLineMatches (specificLoopback ip port))
  have hwf2 : ∀ l ∈ lines2.filter (tunnelLineMatches (specificLoopback ip port)),
      wellFormedTunnelLine l = true :=
    fun l hl => hwf l (hpf.mem_iff.mpr hl)
  have hnd2 : ((lines2.filter (tunnelLineMatches (specificLoopback ip port))).map pidKey).Nodup :=
    ((hpf.map pidKey).nodup_iff).mp hnd
  obtain ⟨hk2, _⟩ := doTerminateTunnelsLines_kills lines2 (specificLoopback ip port) hwf2 hnd2
  rw [hk2]
  rw [show doTerminateTunnels text ip port
    = doTerminateTunnelsLines (pySplitLines text) (specificLoopback ip port) from rfl, hk]
  exact (hpf.map pidKey).symm

/-- Claim C6 witness: one well-formed matching line plus one non-matching
line; the routine kills exactly pid 100 and is stable under swapping the two
lines. -/
theorem claim_C6_witness :
    ((∀ l ∈ (pySplitLines (psLineA ++ "\nnot a tunnel line")).filter
        (tunnelLineMatches (specificLoopback PyVal.vnone PyVal.vnone)),
      wellFormedTunnelLine l = true) ∧
      (((pySplitLines (psLineA ++ "\nnot a tunnel line")).filter
        (tunnelLineMatches (specificLoopback PyVal.vnone PyVal.vnone))).map pidKey).Nodup) ∧
    (killedPIDs (doTerminateTunnels (psLineA ++ "\nnot a tunnel line") PyVal.vnone PyVal.vnone).1
        = ((pySplitLines (psLineA ++ "\nnot a tunnel line")).filter
          (tunnelLineMatches (specificLoopback PyVal.vnone PyVal.vnone))).map pidKey ∧
      (doTerminateTunnels (psLineA ++ "\nnot a tunnel line") PyVal.vnone PyVal.vnone).2
        = RunOutcome.completed ∧
      (killedPIDs (doTerminateTunnelsLines ["not a tunnel line", psLineA]
          (specificLoopback PyVal.vnone PyVal.vnone)).1).Perm
        (killedPIDs (doTerminateTunnels (psLineA ++ "\nnot a tunnel line") PyVal.vnone PyVal.vnone).1)) := by
  have h := claim_C6 (psLineA ++ "\nnot a tunnel line") PyVal.vnone PyVal.vnone
    (by decide) (by decide)
  exact ⟨⟨by decide, by decide⟩, h.1, h.2.1,
    h.2.2 ["not a tunnel line", psLineA] (by decide)⟩
